import Mathlib

/-!
Verification of the Verdusoft inventory backend (src/main.py, src/schemas.py).

The external tabular store (Supabase) is modelled as an explicit `DB` record of
tables; each FastAPI handler becomes a Lean function threading the `DB` state
and returning `Except ApiError` results.  Monetary amounts (`float` in the
source, used only as pass-through payload: the handlers never compute with
them) are modelled as `Int`; the store-side derived columns `subtotal` and
`total` (computed by database defaults/triggers, not by this code) are filled
with the formula the spec attributes to the store.  Generated primary keys are
modelled with `next_*` counters on `DB`.
-/

namespace Verdusoft

/-- schemas.py `EstadoEnum`. -/
inductive Estado where
  | completada
  | cancelada
  | pendiente
deriving DecidableEq

/-- schemas.py `MetodoPagoEnum`. -/
inductive MetodoPago where
  | efectivo
  | tarjeta
  | transferencia
  | otro
deriving DecidableEq

/-- schemas.py `UnidadMedidaEnum`. -/
inductive UnidadMedida where
  | unidad
  | kg
  | litro
  | metro
  | caja
deriving DecidableEq

/-- A row of the `producto` table (fields of schemas.py `Producto`, timestamps
omitted; `float` prices modelled as `Int`, pass-through only). -/
structure ProductoRow where
  id_producto : Nat
  codigo : Option String
  nombre : String
  descripcion : Option String
  id_categoria : Nat
  precio_actual : Int
  precio_costo : Option Int
  stock_minimo : Nat
  stock : Nat
  unidad_medida : UnidadMedida
  activo : Bool
deriving DecidableEq

/-- A row of the `categoria` table (schemas.py `Categoria`). -/
structure CategoriaRow where
  id_categoria : Nat
  nombre : String
  descripcion : Option String
  activo : Bool
deriving DecidableEq

/-- A row of the `cliente` table (schemas.py `Cliente`). -/
structure ClienteRow where
  id_cliente : Nat
  nombre : String
  telefono : Option String
  email : Option String
  direccion : Option String
  activo : Bool
deriving DecidableEq

/-- A row of the `proveedor` table (schemas.py `Proveedor`). -/
structure ProveedorRow where
  id_proveedor : Nat
  nombre : String
  telefono : Option String
  email : Option String
  direccion : Option String
  activo : Bool
deriving DecidableEq

/-- A row of the `venta` table (header fields of schemas.py `Venta`).
`total` is a store-side derived column (spec section 9): the handler never
writes it. `fecha` stands for the datetime payload. -/
structure VentaRow where
  id_venta : Nat
  numero_ticket : Option String
  id_cliente : Option Nat
  fecha : Nat
  metodo_pago : MetodoPago
  observaciones : Option String
  estado : Estado
  total : Int
deriving DecidableEq

/-- A row of the `compra` table (header fields of schemas.py `Compra`). -/
structure CompraRow where
  id_compra : Nat
  numero_factura : Option String
  id_proveedor : Option Nat
  fecha : Nat
  observaciones : Option String
  estado : Estado
  total : Int
deriving DecidableEq

/-- A row of the `detalle_venta` table (schemas.py `DetalleVenta`).
`subtotal` is a store-side derived column (quantity times unit price minus
discount, per spec section 3). -/
structure DetalleVentaRow where
  id_detalle_venta : Nat
  id_venta : Nat
  id_producto : Nat
  cantidad : Nat
  precio_unitario : Int
  descuento : Int
  subtotal : Int
deriving DecidableEq

/-- A row of the `detalle_compra` table (schemas.py `DetalleCompra`). -/
structure DetalleCompraRow where
  id_detalle_compra : Nat
  id_compra : Nat
  id_producto : Nat
  cantidad : Nat
  precio_unitario : Int
  subtotal : Int
deriving DecidableEq

/-- The external store: one list per table, plus the generated-key counters. -/
structure DB where
  categorias : List CategoriaRow
  clientes : List ClienteRow
  proveedores : List ProveedorRow
  productos : List ProductoRow
  ventas : List VentaRow
  detalles_venta : List DetalleVentaRow
  compras : List CompraRow
  detalles_compra : List DetalleCompraRow
  next_venta_id : Nat
  next_detalle_venta_id : Nat
  next_compra_id : Nat
  next_detalle_compra_id : Nat
deriving DecidableEq

/-- Well-formedness of the store: every generated id already present is below
the corresponding counter, so freshly generated ids are fresh. -/
def DB.wf (db : DB) : Bool :=
  db.ventas.all (fun v => decide (v.id_venta < db.next_venta_id)) &&
  db.detalles_venta.all (fun d => decide (d.id_venta < db.next_venta_id)) &&
  db.compras.all (fun c => decide (c.id_compra < db.next_compra_id)) &&
  db.detalles_compra.all (fun d => decide (d.id_compra < db.next_compra_id))

/-- The error outcomes the handlers raise (`HTTPException` payloads in
main.py, plus the request-validation rejection FastAPI performs before a
handler runs). Constructors carry the data the detail strings interpolate. -/
inductive ApiError where
  | notFound (detail : String)
  | productNotFound (id_producto : Nat)
  | insufficientStock (id_producto : Nat) (stock_actual : Nat)
  | validationFailed (detail : String)
  | creationFailed (detail : String)
deriving DecidableEq

/-- schemas.py `MensajeRespuesta`. -/
structure MensajeRespuesta where
  mensaje : String
  detalles : Option String
deriving DecidableEq

/-- Behaviour of the external store during a header+lines creation: normal
operation, a header insert that yields no row, or a line-batch insert that
raises a store error (spec sections 4.1 and 9 describe both failure modes). -/
inductive Fault where
  | ok
  | headerInsertEmpty
  | lineInsertError
deriving DecidableEq

/-- Generic success test on a handler result. -/
def exceptOk {α : Type} : Except ApiError α → Bool
  | .ok _ => true
  | .error _ => false

/-- schemas.py `DetalleVentaCreate`. -/
structure DetalleVentaCreate where
  id_producto : Nat
  cantidad : Nat
  precio_unitario : Int
  descuento : Int
deriving DecidableEq

/-- schemas.py `DetalleCompraCreate`. -/
structure DetalleCompraCreate where
  id_producto : Nat
  cantidad : Nat
  precio_unitario : Int
deriving DecidableEq

/-- schemas.py `VentaCreate` (header fields plus the line list; the
`datetime.now` default is applied at parse time, so `fecha` is plain data). -/
structure VentaCreate where
  numero_ticket : Option String
  id_cliente : Option Nat
  fecha : Nat
  metodo_pago : MetodoPago
  observaciones : Option String
  estado : Estado
  detalles : List DetalleVentaCreate
deriving DecidableEq

/-- schemas.py `CompraCreate`. -/
structure CompraCreate where
  numero_factura : Option String
  id_proveedor : Option Nat
  fecha : Nat
  observaciones : Option String
  estado : Estado
  detalles : List DetalleCompraCreate
deriving DecidableEq

/-- Pydantic field constraints of `DetalleVentaCreate`: `id_producto > 0`,
`cantidad > 0`, `precio_unitario ≥ 0`, `descuento ≥ 0`. -/
def DetalleVentaCreate.valid (d : DetalleVentaCreate) : Bool :=
  decide (0 < d.id_producto) && decide (0 < d.cantidad) &&
  decide (0 ≤ d.precio_unitario) && decide (0 ≤ d.descuento)

/-- Pydantic field constraints of `DetalleCompraCreate`. -/
def DetalleCompraCreate.valid (d : DetalleCompraCreate) : Bool :=
  decide (0 < d.id_producto) && decide (0 < d.cantidad) &&
  decide (0 ≤ d.precio_unitario)

/-- Request validation of `VentaCreate`: `detalles` must be non-empty
(`min_length=1` plus the `validar_detalles` validator), each line must satisfy
its field constraints, `id_cliente > 0` when provided, ticket number at most
50 characters. -/
def VentaCreate.valid (v : VentaCreate) : Bool :=
  !v.detalles.isEmpty && v.detalles.all DetalleVentaCreate.valid &&
  (match v.id_cliente with
   | some c => decide (0 < c)
   | none => true) &&
  (match v.numero_ticket with
   | some s => decide (s.length ≤ 50)
   | none => true)

/-- Request validation of `CompraCreate`. -/
def CompraCreate.valid (c : CompraCreate) : Bool :=
  !c.detalles.isEmpty && c.detalles.all DetalleCompraCreate.valid &&
  (match c.id_proveedor with
   | some p => decide (0 < p)
   | none => true) &&
  (match c.numero_factura with
   | some s => decide (s.length ≤ 50)
   | none => true)

/-- The `venta` row inserted by `crear_venta` (main.py line 930): the request
header fields; `total` is left to the store default (0 here), per spec
section 9 it is derived externally. -/
def VentaCreate.headerRow (v : VentaCreate) (id_venta : Nat) : VentaRow :=
  { id_venta := id_venta
    numero_ticket := v.numero_ticket
    id_cliente := v.id_cliente
    fecha := v.fecha
    metodo_pago := v.metodo_pago
    observaciones := v.observaciones
    estado := v.estado
    total := 0 }

/-- The `compra` row inserted by `crear_compra` (main.py line 751). -/
def CompraCreate.headerRow (c : CompraCreate) (id_compra : Nat) : CompraRow :=
  { id_compra := id_compra
    numero_factura := c.numero_factura
    id_proveedor := c.id_proveedor
    fecha := c.fecha
    observaciones := c.observaciones
    estado := c.estado
    total := 0 }

/-- The `detalle_venta` rows batch-inserted by `crear_venta` (main.py lines
938 to 945): each request line with the new header id attached; ids are
generated consecutively and `subtotal` is the store-side derived column. -/
def insertDetallesVenta (id_venta : Nat) : Nat → List DetalleVentaCreate → List DetalleVentaRow
  | _, [] => []
  | next_id, d :: rest =>
    { id_detalle_venta := next_id
      id_venta := id_venta
      id_producto := d.id_producto
      cantidad := d.cantidad
      precio_unitario := d.precio_unitario
      descuento := d.descuento
      subtotal := (d.cantidad : Int) * d.precio_unitario - d.descuento } ::
    insertDetallesVenta id_venta (next_id + 1) rest

/-- The `detalle_compra` rows batch-inserted by `crear_compra` (main.py lines
759 to 766). -/
def insertDetallesCompra (id_compra : Nat) : Nat → List DetalleCompraCreate → List DetalleCompraRow
  | _, [] => []
  | next_id, d :: rest =>
    { id_detalle_compra := next_id
      id_compra := id_compra
      id_producto := d.id_producto
      cantidad := d.cantidad
      precio_unitario := d.precio_unitario
      subtotal := (d.cantidad : Int) * d.precio_unitario } ::
    insertDetallesCompra id_compra (next_id + 1) rest

/-- Hydrated sale line (schemas.py `DetalleVenta` with its `producto`
relation). -/
structure DetalleVenta where
  row : DetalleVentaRow
  producto : Option ProductoRow
deriving DecidableEq

/-- Hydrated purchase line (schemas.py `DetalleCompra`). -/
structure DetalleCompra where
  row : DetalleCompraRow
  producto : Option ProductoRow
deriving DecidableEq

/-- Hydrated sale aggregate (schemas.py `Venta`: header, `cliente` relation
and line list). -/
structure Venta where
  header : VentaRow
  cliente : Option ClienteRow
  detalles : List DetalleVenta
deriving DecidableEq

/-- Hydrated purchase aggregate (schemas.py `Compra`). -/
structure Compra where
  header : CompraRow
  proveedor : Option ProveedorRow
  detalles : List DetalleCompra
deriving DecidableEq

/-- main.py `obtener_venta` (lines 863 to 894): fetch the header (404 when
absent), then the lines with `id_venta` equal to the requested id, each
hydrated with its product. -/
def obtener_venta (db : DB) (id_venta : Nat) : Except ApiError Venta :=
  match db.ventas.find? (fun v => v.id_venta == id_venta) with
  | none => .error (.notFound "Venta no encontrada")
  | some v =>
    .ok { header := v
          cliente := match v.id_cliente with
            | some c => db.clientes.find? (fun cl => cl.id_cliente == c)
            | none => none
          detalles := (db.detalles_venta.filter (fun d => d.id_venta == id_venta)).map
            (fun d => { row := d
                        producto := db.productos.find? (fun p => p.id_producto == d.id_producto) }) }

/-- main.py `obtener_compra` (lines 706 to 737). -/
def obtener_compra (db : DB) (id_compra : Nat) : Except ApiError Compra :=
  match db.compras.find? (fun c => c.id_compra == id_compra) with
  | none => .error (.notFound "Compra no encontrada")
  | some c =>
    .ok { header := c
          proveedor := match c.id_proveedor with
            | some p => db.proveedores.find? (fun pr => pr.id_proveedor == p)
            | none => none
          detalles := (db.detalles_compra.filter (fun d => d.id_compra == id_compra)).map
            (fun d => { row := d
                        producto := db.productos.find? (fun p => p.id_producto == d.id_producto) }) }

/-- The stock pre-check loop of `crear_venta` (main.py lines 906 to 926):
lines are visited in order; for each one the product row is fetched
(`ProductNotFound` when absent) and its current stock compared with the
requested quantity (`InsufficientStock`, carrying the product id and current
stock, when `stock < cantidad`). Nothing is written during the loop. -/
def checkStock (productos : List ProductoRow) : List DetalleVentaCreate → Option ApiError
  | [] => none
  | d :: rest =>
    match productos.find? (fun p => p.id_producto == d.id_producto) with
    | none => some (.productNotFound d.id_producto)
    | some p =>
      if p.stock < d.cantidad then some (.insufficientStock d.id_producto p.stock)
      else checkStock productos rest

/-- main.py `crear_venta` (lines 897 to 953): stock pre-check over every
line, then header insert, then line-batch insert (skipped when the line list
is empty, mirroring the `if detalles_data` guard), then the hydrated
aggregate is re-read. `fault` models the two store failure modes: a header
insert yielding no row raises 400 "Error al crear venta"; a store error
during the line insert is caught by the generic handler and re-raised as 400
with the store message, with the header row already persisted. -/
def crear_venta (db : DB) (venta : VentaCreate) (fault : Fault) :
    Except ApiError Venta × DB :=
  match checkStock db.productos venta.detalles with
  | some e => (.error e, db)
  | none =>
    match fault with
    | .headerInsertEmpty => (.error (.creationFailed "Error al crear venta"), db)
    | f =>
      let id_venta := db.next_venta_id
      let db1 : DB := { db with
        ventas := db.ventas ++ [venta.headerRow id_venta]
        next_venta_id := id_venta + 1 }
      let detalles_data := insertDetallesVenta id_venta db1.next_detalle_venta_id venta.detalles
      if detalles_data.isEmpty then
        (obtener_venta db1 id_venta, db1)
      else
        match f with
        | .lineInsertError =>
          (.error (.creationFailed "Error al crear venta: APIError"), db1)
        | _ =>
          let db2 : DB := { db1 with
            detalles_venta := db1.detalles_venta ++ detalles_data
            next_detalle_venta_id := db1.next_detalle_venta_id + venta.detalles.length }
          (obtener_venta db2 id_venta, db2)

/-- main.py `crear_compra` (lines 740 to 774): header insert, line-batch
insert, hydrated re-read; no stock check and no rollback of the header when
the line insert fails. -/
def crear_compra (db : DB) (compra : CompraCreate) (fault : Fault) :
    Except ApiError Compra × DB :=
  match fault with
  | .headerInsertEmpty => (.error (.creationFailed "Error al crear compra"), db)
  | f =>
    let id_compra := db.next_compra_id
    let db1 : DB := { db with
      compras := db.compras ++ [compra.headerRow id_compra]
      next_compra_id := id_compra + 1 }
    let detalles_data := insertDetallesCompra id_compra db1.next_detalle_compra_id compra.detalles
    if detalles_data.isEmpty then
      (obtener_compra db1 id_compra, db1)
    else
      match f with
      | .lineInsertError =>
        (.error (.creationFailed "Error al crear compra: APIError"), db1)
      | _ =>
        let db2 : DB := { db1 with
          detalles_compra := db1.detalles_compra ++ detalles_data
          next_detalle_compra_id := db1.next_detalle_compra_id + compra.detalles.length }
        (obtener_compra db2 id_compra, db2)

/-- The POST /api/ventas endpoint: FastAPI validates the request model before
the handler runs; an invalid body is rejected without touching the store. -/
def postVenta (db : DB) (venta : VentaCreate) (fault : Fault) :
    Except ApiError Venta × DB :=
  if venta.valid then crear_venta db venta fault
  else (.error (.validationFailed "Debe incluir al menos un detalle de venta"), db)

/-- The POST /api/compras endpoint. -/
def postCompra (db : DB) (compra : CompraCreate) (fault : Fault) :
    Except ApiError Compra × DB :=
  if compra.valid then crear_compra db compra fault
  else (.error (.validationFailed "Debe incluir al menos un detalle de compra"), db)

/-- The store as the write phase of `crear_venta` leaves it when no fault
occurs: header row appended, line rows appended (none when the line list is
empty, matching the `if detalles_data` guard). -/
def dbAfterVenta (db : DB) (venta : VentaCreate) : DB :=
  if venta.detalles.isEmpty then
    { db with
      ventas := db.ventas ++ [venta.headerRow db.next_venta_id]
      next_venta_id := db.next_venta_id + 1 }
  else
    { db with
      ventas := db.ventas ++ [venta.headerRow db.next_venta_id]
      next_venta_id := db.next_venta_id + 1
      detalles_venta := db.detalles_venta ++
        insertDetallesVenta db.next_venta_id db.next_detalle_venta_id venta.detalles
      next_detalle_venta_id := db.next_detalle_venta_id + venta.detalles.length }

/-- The store as the write phase of `crear_compra` leaves it when no fault
occurs. -/
def dbAfterCompra (db : DB) (compra : CompraCreate) : DB :=
  if compra.detalles.isEmpty then
    { db with
      compras := db.compras ++ [compra.headerRow db.next_compra_id]
      next_compra_id := db.next_compra_id + 1 }
  else
    { db with
      compras := db.compras ++ [compra.headerRow db.next_compra_id]
      next_compra_id := db.next_compra_id + 1
      detalles_compra := db.detalles_compra ++
        insertDetallesCompra db.next_compra_id db.next_detalle_compra_id compra.detalles
      next_detalle_compra_id := db.next_detalle_compra_id + compra.detalles.length }

/-- The hydrated aggregate a faultless `crear_venta` re-reads in a
well-formed store: inserted header, its relation, and the freshly inserted
lines each hydrated with its product. -/
def ventaAggregate (db : DB) (venta : VentaCreate) : Venta :=
  { header := venta.headerRow db.next_venta_id
    cliente := match venta.id_cliente with
      | some c => db.clientes.find? (fun cl => cl.id_cliente == c)
      | none => none
    detalles := (insertDetallesVenta db.next_venta_id db.next_detalle_venta_id
        venta.detalles).map
      (fun d => { row := d
                  producto := db.productos.find? (fun p => p.id_producto == d.id_producto) }) }

/-- The hydrated aggregate a faultless `crear_compra` re-reads in a
well-formed store. -/
def compraAggregate (db : DB) (compra : CompraCreate) : Compra :=
  { header := compra.headerRow db.next_compra_id
    proveedor := match compra.id_proveedor with
      | some p => db.proveedores.find? (fun pr => pr.id_proveedor == p)
      | none => none
    detalles := (insertDetallesCompra db.next_compra_id db.next_detalle_compra_id
        compra.detalles).map
      (fun d => { row := d
                  producto := db.productos.find? (fun p => p.id_producto == d.id_producto) }) }

/-- schemas.py `ProductoUpdate`: every field optional; `none` models a field
absent from the partial update (pydantic `exclude_unset`). -/
structure ProductoUpdate where
  codigo : Option String
  nombre : Option String
  descripcion : Option String
  id_categoria : Option Nat
  precio_actual : Option Int
  precio_costo : Option Int
  stock_minimo : Option Nat
  stock : Option Nat
  unidad_medida : Option UnidadMedida
  activo : Option Bool
deriving DecidableEq

/-- True when `model_dump(exclude_unset=True)` would be the empty dict. -/
def ProductoUpdate.isEmpty (u : ProductoUpdate) : Bool :=
  u.codigo.isNone && u.nombre.isNone && u.descripcion.isNone &&
  u.id_categoria.isNone && u.precio_actual.isNone && u.precio_costo.isNone &&
  u.stock_minimo.isNone && u.stock.isNone && u.unidad_medida.isNone &&
  u.activo.isNone

/-- The store-side effect of `update(data)` on one matched row: provided
fields overwrite, absent fields keep the stored value. -/
def ProductoUpdate.apply (u : ProductoUpdate) (p : ProductoRow) : ProductoRow :=
  { p with
    codigo := match u.codigo with
      | some c => some c
      | none => p.codigo
    nombre := u.nombre.getD p.nombre
    descripcion := match u.descripcion with
      | some d => some d
      | none => p.descripcion
    id_categoria := u.id_categoria.getD p.id_categoria
    precio_actual := u.precio_actual.getD p.precio_actual
    precio_costo := match u.precio_costo with
      | some c => some c
      | none => p.precio_costo
    stock_minimo := u.stock_minimo.getD p.stock_minimo
    stock := u.stock.getD p.stock
    unidad_medida := u.unidad_medida.getD p.unidad_medida
    activo := u.activo.getD p.activo }

/-- schemas.py `CompraUpdate`. -/
structure CompraUpdate where
  numero_factura : Option String
  id_proveedor : Option Nat
  observaciones : Option String
  estado : Option Estado
deriving DecidableEq

/-- True when the partial purchase update provides no field. -/
def CompraUpdate.isEmpty (u : CompraUpdate) : Bool :=
  u.numero_factura.isNone && u.id_proveedor.isNone && u.observaciones.isNone &&
  u.estado.isNone

/-- Effect of the purchase header update on one matched row. -/
def CompraUpdate.apply (u : CompraUpdate) (c : CompraRow) : CompraRow :=
  { c with
    numero_factura := match u.numero_factura with
      | some n => some n
      | none => c.numero_factura
    id_proveedor := match u.id_proveedor with
      | some p => some p
      | none => c.id_proveedor
    observaciones := match u.observaciones with
      | some o => some o
      | none => c.observaciones
    estado := u.estado.getD c.estado }

/-- main.py `actualizar_producto` (lines 620 to 643): an empty partial update
is rejected with 400 "No hay datos para actualizar" before any store call;
otherwise the update is applied to every row whose `id_producto` matches and
the first updated row is returned, or 404 when no row matched (in which case
the store changed nothing). -/
def actualizar_producto (db : DB) (id_producto : Nat) (u : ProductoUpdate) :
    Except ApiError ProductoRow × DB :=
  if u.isEmpty then
    (.error (.validationFailed "No hay datos para actualizar"), db)
  else
    match db.productos.find? (fun p => p.id_producto == id_producto) with
    | none => (.error (.notFound "Producto no encontrado"), db)
    | some p =>
      (.ok (u.apply p),
       { db with productos :=
           db.productos.map (fun q => if q.id_producto == id_producto then u.apply q else q) })

/-- main.py `actualizar_compra` (lines 777 to 797): same empty-update and
not-found handling on the `compra` table; on success the hydrated aggregate
is re-read from the updated store. -/
def actualizar_compra (db : DB) (id_compra : Nat) (u : CompraUpdate) :
    Except ApiError Compra × DB :=
  if u.isEmpty then
    (.error (.validationFailed "No hay datos para actualizar"), db)
  else
    match db.compras.find? (fun c => c.id_compra == id_compra) with
    | none => (.error (.notFound "Compra no encontrada"), db)
    | some _ =>
      let compras := db.compras.map
        (fun c => if c.id_compra == id_compra then u.apply c else c)
      let db1 : DB := { db with compras := compras }
      (obtener_compra db1 id_compra, db1)

/-- main.py `eliminar_producto` (lines 646 to 667): soft delete, an update
setting `activo := false` on every row whose id matches; 404 when no row
matched. -/
def eliminar_producto (db : DB) (id_producto : Nat) :
    Except ApiError MensajeRespuesta × DB :=
  let matched := db.productos.filter (fun p => p.id_producto == id_producto)
  if matched.isEmpty then
    (.error (.notFound "Producto no encontrado"), db)
  else
    (.ok { mensaje := "Producto desactivado exitosamente", detalles := none },
     { db with productos :=
         db.productos.map (fun p =>
           if p.id_producto == id_producto then { p with activo := false } else p) })

/-- main.py `eliminar_categoria` (lines 232 to 256). -/
def eliminar_categoria (db : DB) (id_categoria : Nat) :
    Except ApiError MensajeRespuesta × DB :=
  let matched := db.categorias.filter (fun c => c.id_categoria == id_categoria)
  if matched.isEmpty then
    (.error (.notFound "Categoría no encontrada"), db)
  else
    (.ok { mensaje := "Categoría desactivada exitosamente", detalles := none },
     { db with categorias :=
         db.categorias.map (fun c =>
           if c.id_categoria == id_categoria then { c with activo := false } else c) })

/-- schemas.py `ReporteStockBajo`. -/
structure ReporteStockBajo where
  id_producto : Nat
  nombre : String
  codigo : Option String
  stock_actual : Nat
  stock_minimo : Nat
  diferencia : Int
deriving DecidableEq

/-- The record `productos_stock_bajo` emits for a low-stock product
(main.py lines 558 to 567): `diferencia = stock_minimo - stock`. -/
def reporteOf (p : ProductoRow) : ReporteStockBajo :=
  { id_producto := p.id_producto
    nombre := p.nombre
    codigo := p.codigo
    stock_actual := p.stock
    stock_minimo := p.stock_minimo
    diferencia := (p.stock_minimo : Int) - (p.stock : Int) }

/-- main.py `productos_stock_bajo` (lines 539 to 574): select the active
products, keep those with `stock <= stock_minimo`, emit the report records.
The handler only reads; it returns the store unchanged. -/
def productos_stock_bajo (db : DB) : List ReporteStockBajo × DB :=
  (((db.productos.filter (fun p => p.activo)).filter
      (fun p => decide (p.stock ≤ p.stock_minimo))).map reporteOf, db)

/-! Concrete sample data, used by the counterexample and the witnesses. -/

/-- Sample category row. -/
def categoriaBebidas : CategoriaRow :=
  { id_categoria := 1, nombre := "Bebidas", descripcion := none, activo := true }

/-- Sample product: id 1, stock 10, minimum 5, active. -/
def productoCola : ProductoRow :=
  { id_producto := 1, codigo := some "C-1", nombre := "Cola", descripcion := none
    id_categoria := 1, precio_actual := 2, precio_costo := some 1
    stock_minimo := 5, stock := 10, unidad_medida := .unidad, activo := true }

/-- Sample product below its minimum stock (3 of minimum 5), active. -/
def productoTe : ProductoRow :=
  { id_producto := 2, codigo := none, nombre := "Te", descripcion := none
    id_categoria := 1, precio_actual := 3, precio_costo := none
    stock_minimo := 5, stock := 3, unidad_medida := .unidad, activo := true }

/-- Sample store: one category, the two products, no orders yet. -/
def dbBase : DB :=
  { categorias := [categoriaBebidas], clientes := [], proveedores := []
    productos := [productoCola, productoTe], ventas := [], detalles_venta := []
    compras := [], detalles_compra := [], next_venta_id := 1
    next_detalle_venta_id := 1, next_compra_id := 1, next_detalle_compra_id := 1 }

/-- Sale line: 6 units of product 1. -/
def lineaSeis : DetalleVentaCreate :=
  { id_producto := 1, cantidad := 6, precio_unitario := 2, descuento := 0 }

/-- Sale line: 11 units of product 1 (more than its stock of 10). -/
def lineaOnce : DetalleVentaCreate :=
  { id_producto := 1, cantidad := 11, precio_unitario := 2, descuento := 0 }

/-- Sale line referencing an absent product id. -/
def lineaFantasma : DetalleVentaCreate :=
  { id_producto := 99, cantidad := 1, precio_unitario := 2, descuento := 0 }

/-- A sale request with the given lines and defaulted header fields. -/
def ventaBase (ds : List DetalleVentaCreate) : VentaCreate :=
  { numero_ticket := none, id_cliente := none, fecha := 0, metodo_pago := .efectivo
    observaciones := none, estado := .completada, detalles := ds }

/-- Purchase line: 2 units of product 1. -/
def lineaCompraDos : DetalleCompraCreate :=
  { id_producto := 1, cantidad := 2, precio_unitario := 1 }

/-- A purchase request with the given lines and defaulted header fields. -/
def compraBase (ds : List DetalleCompraCreate) : CompraCreate :=
  { numero_factura := none, id_proveedor := none, fecha := 0
    observaciones := none, estado := .completada, detalles := ds }

/-- A partial product update providing only `stock := 3`. -/
def updateStockTres : ProductoUpdate :=
  { codigo := none, nombre := none, descripcion := none, id_categoria := none
    precio_actual := none, precio_costo := none, stock_minimo := none
    stock := some 3, unidad_medida := none, activo := none }

/-- The empty partial product update. -/
def updateNada : ProductoUpdate :=
  { codigo := none, nombre := none, descripcion := none, id_categoria := none
    precio_actual := none, precio_costo := none, stock_minimo := none
    stock := none, unidad_medida := none, activo := none }

/-- The empty partial purchase update. -/
def updateCompraNada : CompraUpdate :=
  { numero_factura := none, id_proveedor := none, observaciones := none, estado := none }

/-! Helper lemmas about lists and the line-insert helpers. -/

theorem find?_append_last {α : Type} (p : α → Bool) (l : List α) (x : α)
    (hl : ∀ y ∈ l, p y = false) (hx : p x = true) :
    (l ++ [x]).find? p = some x := by
  induction l with
  | nil => simp [List.find?, hx]
  | cons a t ih =>
    have ha : p a = false := hl a (List.mem_cons_self a t)
    simp only [List.cons_append, List.find?_cons, ha]
    exact ih fun y hy => hl y (List.mem_cons_of_mem a hy)

theorem find?_eq_none_of_all {α : Type} (p : α → Bool) (l : List α)
    (h : ∀ a ∈ l, p a = false) : l.find? p = none := by
  induction l with
  | nil => rfl
  | cons a t ih =>
    simp only [List.find?_cons, h a (List.mem_cons_self a t)]
    exact ih fun b hb => h b (List.mem_cons_of_mem a hb)

theorem find?_append_isSome {α : Type} (p : α → Bool) (l : List α) (x : α)
    (hx : p x = true) : ∃ y, (l ++ [x]).find? p = some y := by
  induction l with
  | nil => exact ⟨x, by simp [List.find?, hx]⟩
  | cons a t ih =>
    cases ha : p a with
    | true => exact ⟨a, by simp [List.cons_append, List.find?_cons, ha]⟩
    | false =>
      obtain ⟨y, hy⟩ := ih
      exact ⟨y, by simp only [List.cons_append, List.find?_cons, ha]; exact hy⟩

theorem filter_eq_nil_of_all {α : Type} (p : α → Bool) (l : List α)
    (h : ∀ a ∈ l, p a = false) : l.filter p = [] := by
  induction l with
  | nil => rfl
  | cons a t ih =>
    have ha : p a = false := h a (List.mem_cons_self a t)
    simp only [List.filter_cons, ha]
    exact ih fun b hb => h b (List.mem_cons_of_mem a hb)

theorem filter_eq_self_of_all {α : Type} (p : α → Bool) (l : List α)
    (h : ∀ a ∈ l, p a = true) : l.filter p = l := by
  induction l with
  | nil => rfl
  | cons a t ih =>
    have ha : p a = true := h a (List.mem_cons_self a t)
    simp only [List.filter_cons, ha, if_true]
    rw [ih fun b hb => h b (List.mem_cons_of_mem a hb)]

theorem filter_isEmpty_eq_false {α : Type} (p : α → Bool) (l : List α) (a : α)
    (ha : a ∈ l) (hp : p a = true) : (l.filter p).isEmpty = false := by
  cases hf : l.filter p with
  | nil =>
    have : a ∈ l.filter p := List.mem_filter.mpr ⟨ha, hp⟩
    rw [hf] at this
    cases this
  | cons b t => rfl

theorem insertDetallesVenta_length (id_venta next_id : Nat)
    (ds : List DetalleVentaCreate) :
    (insertDetallesVenta id_venta next_id ds).length = ds.length := by
  induction ds generalizing next_id with
  | nil => rfl
  | cons d rest ih => simp [insertDetallesVenta, ih]

theorem insertDetallesVenta_id (id_venta next_id : Nat)
    (ds : List DetalleVentaCreate) :
    ∀ r ∈ insertDetallesVenta id_venta next_id ds, r.id_venta = id_venta := by
  induction ds generalizing next_id with
  | nil => intro r hr; cases hr
  | cons d rest ih =>
    intro r hr
    rcases List.mem_cons.mp hr with rfl | hr'
    · rfl
    · exact ih (next_id + 1) r hr'

theorem insertDetallesVenta_isEmpty (id_venta next_id : Nat)
    (ds : List DetalleVentaCreate) :
    (insertDetallesVenta id_venta next_id ds).isEmpty = ds.isEmpty := by
  cases ds <;> rfl

theorem insertDetallesCompra_length (id_compra next_id : Nat)
    (ds : List DetalleCompraCreate) :
    (insertDetallesCompra id_compra next_id ds).length = ds.length := by
  induction ds generalizing next_id with
  | nil => rfl
  | cons d rest ih => simp [insertDetallesCompra, ih]

theorem insertDetallesCompra_id (id_compra next_id : Nat)
    (ds : List DetalleCompraCreate) :
    ∀ r ∈ insertDetallesCompra id_compra next_id ds, r.id_compra = id_compra := by
  induction ds generalizing next_id with
  | nil => intro r hr; cases hr
  | cons d rest ih =>
    intro r hr
    rcases List.mem_cons.mp hr with rfl | hr'
    · rfl
    · exact ih (next_id + 1) r hr'

theorem insertDetallesCompra_isEmpty (id_compra next_id : Nat)
    (ds : List DetalleCompraCreate) :
    (insertDetallesCompra id_compra next_id ds).isEmpty = ds.isEmpty := by
  cases ds <;> rfl

/-! Lemmas about the stock pre-check loop. -/

theorem checkStock_none_of (productos : List ProductoRow)
    (ds : List DetalleVentaCreate)
    (h : ∀ d ∈ ds, ∃ p, productos.find? (fun q => q.id_producto == d.id_producto) = some p ∧
        d.cantidad ≤ p.stock) :
    checkStock productos ds = none := by
  induction ds with
  | nil => rfl
  | cons a rest ih =>
    obtain ⟨p, hp, hle⟩ := h a (List.mem_cons_self a rest)
    simp only [checkStock, hp]
    rw [if_neg (not_lt.mpr hle)]
    exact ih fun d hd => h d (List.mem_cons_of_mem a hd)

theorem checkStock_insufficient (productos : List ProductoRow)
    (ds : List DetalleVentaCreate)
    (hex : ∀ d ∈ ds, ∃ p, productos.find? (fun q => q.id_producto == d.id_producto) = some p)
    (hover : ∃ d ∈ ds, ∃ p,
        productos.find? (fun q => q.id_producto == d.id_producto) = some p ∧
        p.stock < d.cantidad) :
    ∃ d ∈ ds, ∃ p,
      productos.find? (fun q => q.id_producto == d.id_producto) = some p ∧
      p.stock < d.cantidad ∧
      checkStock productos ds = some (.insufficientStock d.id_producto p.stock) := by
  induction ds with
  | nil =>
    obtain ⟨d, hd, -⟩ := hover
    cases hd
  | cons a rest ih =>
    obtain ⟨pa, hpa⟩ := hex a (List.mem_cons_self a rest)
    by_cases hlt : pa.stock < a.cantidad
    · refine ⟨a, List.mem_cons_self a rest, pa, hpa, hlt, ?_⟩
      simp only [checkStock, hpa]
      rw [if_pos hlt]
    · have hover' : ∃ d ∈ rest, ∃ p,
          productos.find? (fun q => q.id_producto == d.id_producto) = some p ∧
          p.stock < d.cantidad := by
        obtain ⟨d, hd, p, hp, hlt'⟩ := hover
        rcases List.mem_cons.mp hd with rfl | hd'
        · rw [hpa] at hp
          cases hp
          exact absurd hlt' hlt
        · exact ⟨d, hd', p, hp, hlt'⟩
      obtain ⟨d, hd, p, hp, hlt', hck⟩ :=
        ih (fun d hd => hex d (List.mem_cons_of_mem a hd)) hover'
      refine ⟨d, List.mem_cons_of_mem a hd, p, hp, hlt', ?_⟩
      simp only [checkStock, hpa]
      rw [if_neg hlt]
      exact hck

theorem checkStock_missing_first (productos : List ProductoRow)
    (pre : List DetalleVentaCreate) (d : DetalleVentaCreate)
    (post : List DetalleVentaCreate)
    (hpre : ∀ e ∈ pre, ∃ p, productos.find? (fun q => q.id_producto == e.id_producto) = some p ∧
        e.cantidad ≤ p.stock)
    (hd : productos.find? (fun q => q.id_producto == d.id_producto) = none) :
    checkStock productos (pre ++ d :: post) = some (.productNotFound d.id_producto) := by
  induction pre with
  | nil =>
    simp only [List.nil_append, checkStock]
    rw [hd]
  | cons a t ih =>
    obtain ⟨p, hp, hle⟩ := hpre a (List.mem_cons_self a t)
    simp only [List.cons_append, checkStock, hp]
    rw [if_neg (not_lt.mpr hle)]
    exact ih fun e he => hpre e (List.mem_cons_of_mem a he)

theorem checkStock_missing_some (productos : List ProductoRow)
    (ds : List DetalleVentaCreate)
    (h : ∃ d ∈ ds, productos.find? (fun q => q.id_producto == d.id_producto) = none) :
    ∃ e, checkStock productos ds = some e := by
  induction ds with
  | nil =>
    obtain ⟨d, hd, -⟩ := h
    cases hd
  | cons a rest ih =>
    cases hfa : productos.find? (fun q => q.id_producto == a.id_producto) with
    | none =>
      refine ⟨.productNotFound a.id_producto, ?_⟩
      simp only [checkStock]
      rw [hfa]
    | some p =>
      by_cases hlt : p.stock < a.cantidad
      · refine ⟨.insufficientStock a.id_producto p.stock, ?_⟩
        simp only [checkStock, hfa]
        rw [if_pos hlt]
      · have h' : ∃ d ∈ rest,
            productos.find? (fun q => q.id_producto == d.id_producto) = none := by
          obtain ⟨d, hd, hnone⟩ := h
          rcases List.mem_cons.mp hd with rfl | hd'
          · rw [hfa] at hnone
            cases hnone
          · exact ⟨d, hd', hnone⟩
        obtain ⟨e, he⟩ := ih h'
        refine ⟨e, ?_⟩
        simp only [checkStock, hfa]
        rw [if_neg hlt]
        exact he

/-- When the pre-check fails, `crear_venta` returns that error and leaves the
store untouched: the check phase precedes every write. -/
theorem crear_venta_check_error (db : DB) (venta : VentaCreate) (fault : Fault)
    (e : ApiError) (h : checkStock db.productos venta.detalles = some e) :
    crear_venta db venta fault = (.error e, db) := by
  unfold crear_venta
  rw [h]

/-- With the pre-check passing and no store fault, `crear_venta` performs the
two writes and re-reads the aggregate from the written store. -/
theorem crear_venta_ok_eq (db : DB) (venta : VentaCreate)
    (hchk : checkStock db.productos venta.detalles = none) :
    crear_venta db venta .ok =
      (obtener_venta (dbAfterVenta db venta) db.next_venta_id, dbAfterVenta db venta) := by
  unfold crear_venta dbAfterVenta
  simp only [hchk, insertDetallesVenta_isEmpty]
  cases h : venta.detalles.isEmpty <;> simp [h]

/-- With no store fault, `crear_compra` performs the two writes and re-reads
the aggregate from the written store. -/
theorem crear_compra_ok_eq (db : DB) (compra : CompraCreate) :
    crear_compra db compra .ok =
      (obtener_compra (dbAfterCompra db compra) db.next_compra_id, dbAfterCompra db compra) := by
  unfold crear_compra dbAfterCompra
  simp only [insertDetallesCompra_isEmpty]
  cases h : compra.detalles.isEmpty <;> simp [h]

/-- In a well-formed store, the re-read after a faultless sale creation finds
the inserted header and exactly the inserted lines. -/
theorem obtener_after_venta (db : DB) (venta : VentaCreate) (hwf : db.wf = true) :
    obtener_venta (dbAfterVenta db venta) db.next_venta_id = .ok (ventaAggregate db venta) := by
  simp only [DB.wf, Bool.and_eq_true, List.all_eq_true, decide_eq_true_eq] at hwf
  obtain ⟨⟨⟨hwv, hwd⟩, -⟩, -⟩ := hwf
  have hvb : ∀ y ∈ db.ventas, (y.id_venta == db.next_venta_id) = false := fun y hy =>
    beq_eq_false_iff_ne.mpr (Nat.ne_of_lt (hwv y hy))
  have hdb : ∀ d ∈ db.detalles_venta, (d.id_venta == db.next_venta_id) = false := fun d hd =>
    beq_eq_false_iff_ne.mpr (Nat.ne_of_lt (hwd d hd))
  have hhdr : ((venta.headerRow db.next_venta_id).id_venta == db.next_venta_id) = true := by
    simp [VentaCreate.headerRow]
  unfold dbAfterVenta
  cases h : venta.detalles.isEmpty with
  | true =>
    have hnil : venta.detalles = [] := List.isEmpty_iff.mp h
    unfold obtener_venta ventaAggregate
    simp [find?_append_last _ _ _ hvb hhdr, find?_eq_none_of_all _ _ hvb,
      filter_eq_nil_of_all _ _ hdb, hnil, insertDetallesVenta, VentaCreate.headerRow]
  | false =>
    have hfil : (db.detalles_venta ++
        insertDetallesVenta db.next_venta_id db.next_detalle_venta_id venta.detalles).filter
          (fun d => d.id_venta == db.next_venta_id) =
        insertDetallesVenta db.next_venta_id db.next_detalle_venta_id venta.detalles := by
      rw [List.filter_append, filter_eq_nil_of_all _ _ hdb, List.nil_append]
      exact filter_eq_self_of_all _ _ fun r hr => by
        simp [insertDetallesVenta_id _ _ _ r hr]
    unfold obtener_venta ventaAggregate
    simp [find?_append_last _ _ _ hvb hhdr, find?_eq_none_of_all _ _ hvb, hfil,
      VentaCreate.headerRow]

/-- In a well-formed store, the re-read after a faultless purchase creation
finds the inserted header and exactly the inserted lines. -/
theorem obtener_after_compra (db : DB) (compra : CompraCreate) (hwf : db.wf = true) :
    obtener_compra (dbAfterCompra db compra) db.next_compra_id = .ok (compraAggregate db compra) := by
  simp only [DB.wf, Bool.and_eq_true, List.all_eq_true, decide_eq_true_eq] at hwf
  obtain ⟨⟨-, hwc⟩, hwd⟩ := hwf
  have hcb : ∀ y ∈ db.compras, (y.id_compra == db.next_compra_id) = false := fun y hy =>
    beq_eq_false_iff_ne.mpr (Nat.ne_of_lt (hwc y hy))
  have hdb : ∀ d ∈ db.detalles_compra, (d.id_compra == db.next_compra_id) = false := fun d hd =>
    beq_eq_false_iff_ne.mpr (Nat.ne_of_lt (hwd d hd))
  have hhdr : ((compra.headerRow db.next_compra_id).id_compra == db.next_compra_id) = true := by
    simp [CompraCreate.headerRow]
  unfold dbAfterCompra
  cases h : compra.detalles.isEmpty with
  | true =>
    have hnil : compra.detalles = [] := List.isEmpty_iff.mp h
    unfold obtener_compra compraAggregate
    simp [find?_append_last _ _ _ hcb hhdr, find?_eq_none_of_all _ _ hcb,
      filter_eq_nil_of_all _ _ hdb, hnil, insertDetallesCompra, CompraCreate.headerRow]
  | false =>
    have hfil : (db.detalles_compra ++
        insertDetallesCompra db.next_compra_id db.next_detalle_compra_id compra.detalles).filter
          (fun d => d.id_compra == db.next_compra_id) =
        insertDetallesCompra db.next_compra_id db.next_detalle_compra_id compra.detalles := by
      rw [List.filter_append, filter_eq_nil_of_all _ _ hdb, List.nil_append]
      exact filter_eq_self_of_all _ _ fun r hr => by
        simp [insertDetallesCompra_id _ _ _ r hr]
    unfold obtener_compra compraAggregate
    simp [find?_append_last _ _ _ hcb hhdr, find?_eq_none_of_all _ _ hcb, hfil,
      CompraCreate.headerRow]

/-- The sale aggregate returned at creation has one record per request line. -/
theorem ventaAggregate_length (db : DB) (venta : VentaCreate) :
    (ventaAggregate db venta).detalles.length = venta.detalles.length := by
  simp [ventaAggregate, insertDetallesVenta_length]

/-- Every line of the returned sale aggregate carries the new header id. -/
theorem ventaAggregate_ids (db : DB) (venta : VentaCreate) :
    ∀ dv ∈ (ventaAggregate db venta).detalles,
      dv.row.id_venta = (ventaAggregate db venta).header.id_venta := by
  intro dv hdv
  obtain ⟨r, hr, rfl⟩ := List.mem_map.mp hdv
  exact insertDetallesVenta_id _ _ _ r hr

/-- The purchase aggregate returned at creation has one record per request
line. -/
theorem compraAggregate_length (db : DB) (compra : CompraCreate) :
    (compraAggregate db compra).detalles.length = compra.detalles.length := by
  simp [compraAggregate, insertDetallesCompra_length]

/-- Every line of the returned purchase aggregate carries the new header
id. -/
theorem compraAggregate_ids (db : DB) (compra : CompraCreate) :
    ∀ dc ∈ (compraAggregate db compra).detalles,
      dc.row.id_compra = (compraAggregate db compra).header.id_compra := by
  intro dc hdc
  obtain ⟨r, hr, rfl⟩ := List.mem_map.mp hdc
  exact insertDetallesCompra_id _ _ _ r hr

/-- A faultless sale creation appends exactly the new header row to the
`venta` table. -/
theorem crear_venta_ok_ventas (db : DB) (venta : VentaCreate)
    (hchk : checkStock db.productos venta.detalles = none) :
    (crear_venta db venta .ok).2.ventas =
      db.ventas ++ [venta.headerRow db.next_venta_id] := by
  rw [crear_venta_ok_eq db venta hchk]
  unfold dbAfterVenta
  cases h : venta.detalles.isEmpty <;> simp

/-- A header insert yielding no row aborts `crear_venta` after the check
phase with `CreationFailed`, leaving the store untouched. -/
theorem crear_venta_headerEmpty_eq (db : DB) (venta : VentaCreate)
    (hchk : checkStock db.productos venta.detalles = none) :
    crear_venta db venta .headerInsertEmpty =
      (.error (.creationFailed "Error al crear venta"), db) := by
  unfold crear_venta
  rw [hchk]

/-- A store error during the line-batch insert of `crear_venta` surfaces as
`CreationFailed` with the header row already persisted and no line row
written (no rollback). -/
theorem crear_venta_lineError_eq (db : DB) (venta : VentaCreate)
    (hchk : checkStock db.productos venta.detalles = none) :
    crear_venta db venta .lineInsertError =
      (if venta.detalles.isEmpty then
        (obtener_venta (dbAfterVenta db venta) db.next_venta_id, dbAfterVenta db venta)
       else
        (.error (.creationFailed "Error al crear venta: APIError"),
         { db with
           ventas := db.ventas ++ [venta.headerRow db.next_venta_id]
           next_venta_id := db.next_venta_id + 1 })) := by
  unfold crear_venta dbAfterVenta
  simp only [hchk, insertDetallesVenta_isEmpty]
  cases h : venta.detalles.isEmpty <;> simp [h]

/-- A header insert yielding no row aborts `crear_compra` with
`CreationFailed`, leaving the store untouched. -/
theorem crear_compra_headerEmpty_eq (db : DB) (compra : CompraCreate) :
    crear_compra db compra .headerInsertEmpty =
      (.error (.creationFailed "Error al crear compra"), db) := rfl

/-- A store error during the line-batch insert of `crear_compra` surfaces as
`CreationFailed` with the header row already persisted and no line row
written (no rollback). -/
theorem crear_compra_lineError_eq (db : DB) (compra : CompraCreate) :
    crear_compra db compra .lineInsertError =
      (if compra.detalles.isEmpty then
        (obtener_compra (dbAfterCompra db compra) db.next_compra_id, dbAfterCompra db compra)
       else
        (.error (.creationFailed "Error al crear compra: APIError"),
         { db with
           compras := db.compras ++ [compra.headerRow db.next_compra_id]
           next_compra_id := db.next_compra_id + 1 })) := by
  unfold crear_compra dbAfterCompra
  simp only [insertDetallesCompra_isEmpty]
  cases h : compra.detalles.isEmpty <;> simp [h]

/-- A request passing validation reaches the `crear_venta` handler. -/
theorem postVenta_valid (db : DB) (venta : VentaCreate) (fault : Fault)
    (h : venta.valid = true) : postVenta db venta fault = crear_venta db venta fault := by
  simp [postVenta, h]

/-- A request passing validation reaches the `crear_compra` handler. -/
theorem postCompra_valid (db : DB) (compra : CompraCreate) (fault : Fault)
    (h : compra.valid = true) : postCompra db compra fault = crear_compra db compra fault := by
  simp [postCompra, h]

/-! The claims. -/

/-- C10: the sale-creation path never inserts into or updates the `producto`
table: on every call, successful or failed, under every store fault, every
product row (stock included) is exactly as before; stock is only read during
the pre-check. Stated for the handler and for the endpoint wrapper. -/
theorem crear_venta_productos_frame (db : DB) (venta : VentaCreate) (fault : Fault) :
    (crear_venta db venta fault).2.productos = db.productos ∧
    (postVenta db venta fault).2.productos = db.productos := by
  have h : ∀ f : Fault, (crear_venta db venta f).2.productos = db.productos := by
    intro f
    cases hchk : checkStock db.productos venta.detalles with
    | some e => rw [crear_venta_check_error db venta f e hchk]
    | none =>
      cases f with
      | headerInsertEmpty => rw [crear_venta_headerEmpty_eq db venta hchk]
      | ok =>
        rw [crear_venta_ok_eq db venta hchk]
        unfold dbAfterVenta
        cases h2 : venta.detalles.isEmpty <;> rfl
      | lineInsertError =>
        rw [crear_venta_lineError_eq db venta hchk]
        unfold dbAfterVenta
        cases h2 : venta.detalles.isEmpty <;> rfl
  refine ⟨h fault, ?_⟩
  unfold postVenta
  by_cases hv : venta.valid = true
  · rw [hv]
    exact h fault
  · rw [Bool.not_eq_true] at hv
    rw [hv]
    rfl

/-- C5: a creation request whose line list is empty fails request validation
(`ValidationFailed`) before the handler runs, so no write occurs: the store
comes back unchanged. Holds for sales and purchases. -/
theorem empty_detalles_rejected (db : DB) (venta : VentaCreate) (compra : CompraCreate)
    (fv fc : Fault) (hv : venta.detalles = []) (hc : compra.detalles = []) :
    postVenta db venta fv =
      (.error (.validationFailed "Debe incluir al menos un detalle de venta"), db) ∧
    postCompra db compra fc =
      (.error (.validationFailed "Debe incluir al menos un detalle de compra"), db) := by
  have h1 : venta.valid = false := by
    simp [VentaCreate.valid, hv]
  have h2 : compra.valid = false := by
    simp [CompraCreate.valid, hc]
  constructor
  · unfold postVenta
    rw [h1]
    rfl
  · unfold postCompra
    rw [h2]
    rfl

/-- C5 witness: the empty-lines sale and purchase requests at the sample
store. -/
theorem empty_detalles_rejected_witness :
    (ventaBase []).detalles = [] ∧ (compraBase []).detalles = [] ∧
    postVenta dbBase (ventaBase []) .ok =
      (.error (.validationFailed "Debe incluir al menos un detalle de venta"), dbBase) ∧
    postCompra dbBase (compraBase []) .ok =
      (.error (.validationFailed "Debe incluir al menos un detalle de compra"), dbBase) :=
  ⟨rfl, rfl,
    (empty_detalles_rejected dbBase (ventaBase []) (compraBase []) .ok .ok rfl rfl).1,
    (empty_detalles_rejected dbBase (ventaBase []) (compraBase []) .ok .ok rfl rfl).2⟩

/-- C9: in `crear_compra`, a header insert yielding no row fails with
`CreationFailed` before any line write, leaving the store unchanged; a store
failure in the subsequent line-batch insert surfaces as `CreationFailed` with
the already-inserted header row kept (no rollback) and no line row written. -/
theorem crear_compra_fault_paths (db : DB) (compra : CompraCreate)
    (hne : compra.detalles ≠ []) :
    crear_compra db compra .headerInsertEmpty =
      (.error (.creationFailed "Error al crear compra"), db) ∧
    (crear_compra db compra .lineInsertError).1 =
      .error (.creationFailed "Error al crear compra: APIError") ∧
    (crear_compra db compra .lineInsertError).2 =
      { db with
        compras := db.compras ++ [compra.headerRow db.next_compra_id]
        next_compra_id := db.next_compra_id + 1 } ∧
    (crear_compra db compra .lineInsertError).2.detalles_compra = db.detalles_compra := by
  have hie : compra.detalles.isEmpty = false := by
    cases hd : compra.detalles with
    | nil => exact absurd hd hne
    | cons a t => rfl
  rw [crear_compra_lineError_eq db compra, hie]
  exact ⟨crear_compra_headerEmpty_eq db compra, rfl, rfl, rfl⟩

/-- C9 witness: a one-line purchase request against the sample store. -/
theorem crear_compra_fault_paths_witness :
    (compraBase [lineaCompraDos]).detalles ≠ [] ∧
    (crear_compra dbBase (compraBase [lineaCompraDos]) .lineInsertError).2 =
      { dbBase with
        compras := dbBase.compras ++
          [(compraBase [lineaCompraDos]).headerRow dbBase.next_compra_id]
        next_compra_id := dbBase.next_compra_id + 1 } :=
  ⟨by decide,
    (crear_compra_fault_paths dbBase (compraBase [lineaCompraDos]) (by decide)).2.2.1⟩

/-- C7: the low-stock report is computed from the active products alone,
contains exactly those with `stock <= stock_minimo`, each record's deficit is
`stock_minimo - stock` and therefore nonnegative, and the handler performs no
write (the store comes back unchanged). -/
theorem productos_stock_bajo_spec (db : DB) :
    (∀ r ∈ (productos_stock_bajo db).1,
        r.stock_actual ≤ r.stock_minimo ∧
        r.diferencia = (r.stock_minimo : Int) - (r.stock_actual : Int) ∧
        0 ≤ r.diferencia) ∧
    (∀ r ∈ (productos_stock_bajo db).1, ∃ p ∈ db.productos,
        p.activo = true ∧ p.stock ≤ p.stock_minimo ∧ r = reporteOf p) ∧
    (∀ p ∈ db.productos, p.activo = true → p.stock ≤ p.stock_minimo →
        reporteOf p ∈ (productos_stock_bajo db).1) ∧
    (productos_stock_bajo db).2 = db := by
  refine ⟨?_, ?_, ?_, rfl⟩
  · intro r hr
    simp only [productos_stock_bajo, List.mem_map, List.mem_filter,
      decide_eq_true_eq] at hr
    obtain ⟨p, ⟨⟨-, -⟩, hle⟩, rfl⟩ := hr
    refine ⟨by simpa [reporteOf] using hle, rfl, ?_⟩
    simp only [reporteOf]
    omega
  · intro r hr
    simp only [productos_stock_bajo, List.mem_map, List.mem_filter,
      decide_eq_true_eq] at hr
    obtain ⟨p, ⟨⟨hmem, hact⟩, hle⟩, rfl⟩ := hr
    exact ⟨p, hmem, hact, hle, rfl⟩
  · intro p hp hact hle
    simp only [productos_stock_bajo, List.mem_map, List.mem_filter,
      decide_eq_true_eq]
    exact ⟨p, ⟨⟨hp, hact⟩, hle⟩, rfl⟩

/-- C6: every partial update (product shown for the reference entities,
purchase header for the orders) providing zero fields fails with 400 and no
write; a non-empty update against a missing row fails with `NotFound` and no
write; a non-empty update against an existing row applies exactly the
provided fields to the matching rows and returns the updated row; fields not
provided keep their stored values. -/
theorem update_partial_semantics (db : DB) (idp idc : Nat)
    (u : ProductoUpdate) (cu : CompraUpdate) (p : ProductoRow) :
    (u.isEmpty = true → actualizar_producto db idp u =
        (.error (.validationFailed "No hay datos para actualizar"), db)) ∧
    (cu.isEmpty = true → actualizar_compra db idc cu =
        (.error (.validationFailed "No hay datos para actualizar"), db)) ∧
    (u.isEmpty = false →
        db.productos.find? (fun q => q.id_producto == idp) = none →
        actualizar_producto db idp u = (.error (.notFound "Producto no encontrado"), db)) ∧
    (cu.isEmpty = false →
        db.compras.find? (fun c => c.id_compra == idc) = none →
        actualizar_compra db idc cu = (.error (.notFound "Compra no encontrada"), db)) ∧
    (u.isEmpty = false → ∀ q,
        db.productos.find? (fun r => r.id_producto == idp) = some q →
        (actualizar_producto db idp u).1 = .ok (u.apply q) ∧
        (actualizar_producto db idp u).2.productos =
          db.productos.map (fun r => if r.id_producto == idp then u.apply r else r)) ∧
    (u.nombre = none → (u.apply p).nombre = p.nombre) ∧
    (∀ s, u.nombre = some s → (u.apply p).nombre = s) ∧
    (u.stock = none → (u.apply p).stock = p.stock) ∧
    (∀ n, u.stock = some n → (u.apply p).stock = n) ∧
    (u.precio_actual = none → (u.apply p).precio_actual = p.precio_actual) ∧
    (u.activo = none → (u.apply p).activo = p.activo) ∧
    (u.codigo = none → (u.apply p).codigo = p.codigo) := by
  refine ⟨?_, ?_, ?_, ?_, ?_, ?_, ?_, ?_, ?_, ?_, ?_, ?_⟩
  · intro h
    simp [actualizar_producto, h]
  · intro h
    simp [actualizar_compra, h]
  · intro h hf
    simp [actualizar_producto, h, hf]
  · intro h hf
    simp [actualizar_compra, h, hf]
  · intro h q hf
    simp [actualizar_producto, h, hf]
  · intro h
    simp [ProductoUpdate.apply, h]
  · intro s h
    simp [ProductoUpdate.apply, h]
  · intro h
    simp [ProductoUpdate.apply, h]
  · intro n h
    simp [ProductoUpdate.apply, h]
  · intro h
    simp [ProductoUpdate.apply, h]
  · intro h
    simp [ProductoUpdate.apply, h]
  · intro h
    simp [ProductoUpdate.apply, h]

theorem map_eq_self_of_all {α : Type} (f : α → α) (l : List α)
    (h : ∀ a ∈ l, f a = a) : l.map f = l := by
  induction l with
  | nil => rfl
  | cons a t ih =>
    simp [h a (List.mem_cons_self a t), ih fun b hb => h b (List.mem_cons_of_mem a hb)]

/-- When a product row matches, `eliminar_producto` deactivates every
matching row and reports success. -/
theorem eliminar_producto_found (db : DB) (idp : Nat)
    (hne : (db.productos.filter (fun p => p.id_producto == idp)).isEmpty = false) :
    eliminar_producto db idp =
      (.ok { mensaje := "Producto desactivado exitosamente", detalles := none },
       { db with
         productos := db.productos.map
           (fun p => if p.id_producto == idp then { p with activo := false } else p) }) := by
  unfold eliminar_producto
  simp [hne]

/-- When a category row matches, `eliminar_categoria` deactivates every
matching row and reports success. -/
theorem eliminar_categoria_found (db : DB) (idc : Nat)
    (hne : (db.categorias.filter (fun c => c.id_categoria == idc)).isEmpty = false) :
    eliminar_categoria db idc =
      (.ok { mensaje := "Categoría desactivada exitosamente", detalles := none },
       { db with
         categorias := db.categorias.map
           (fun c => if c.id_categoria == idc then { c with activo := false } else c) }) := by
  unfold eliminar_categoria
  simp [hne]

/-- C8: deactivating an existing reference entity twice is idempotent: both
calls succeed, the store after the second call equals the store after the
first, and every matching row is inactive after the first call. Shown for
products and categories, the two deactivation handlers the claim names. -/
theorem eliminar_twice_idempotent (db : DB) (idp idc : Nat)
    (hp : ∃ p ∈ db.productos, p.id_producto = idp)
    (hc : ∃ c ∈ db.categorias, c.id_categoria = idc) :
    exceptOk (eliminar_producto db idp).1 = true ∧
    exceptOk (eliminar_producto (eliminar_producto db idp).2 idp).1 = true ∧
    (eliminar_producto (eliminar_producto db idp).2 idp).2 = (eliminar_producto db idp).2 ∧
    (∀ p ∈ (eliminar_producto db idp).2.productos,
        p.id_producto = idp → p.activo = false) ∧
    exceptOk (eliminar_categoria db idc).1 = true ∧
    exceptOk (eliminar_categoria (eliminar_categoria db idc).2 idc).1 = true ∧
    (eliminar_categoria (eliminar_categoria db idc).2 idc).2 = (eliminar_categoria db idc).2 ∧
    (∀ c ∈ (eliminar_categoria db idc).2.categorias,
        c.id_categoria = idc → c.activo = false) := by
  obtain ⟨p0, hp0, hpid⟩ := hp
  obtain ⟨c0, hc0, hcid⟩ := hc
  have hpb : (p0.id_producto == idp) = true := by simp [hpid]
  have hcb : (c0.id_categoria == idc) = true := by simp [hcid]
  have hne1 : (db.productos.filter (fun p => p.id_producto == idp)).isEmpty = false :=
    filter_isEmpty_eq_false _ _ p0 hp0 hpb
  have hcne1 : (db.categorias.filter (fun c => c.id_categoria == idc)).isEmpty = false :=
    filter_isEmpty_eq_false _ _ c0 hc0 hcb
  have hidp : ∀ q : ProductoRow,
      ((if q.id_producto == idp then { q with activo := false } else q) :
        ProductoRow).id_producto = q.id_producto := by
    intro q
    split <;> rfl
  have hidc : ∀ q : CategoriaRow,
      ((if q.id_categoria == idc then { q with activo := false } else q) :
        CategoriaRow).id_categoria = q.id_categoria := by
    intro q
    split <;> rfl
  have hne2 : ((db.productos.map
      (fun q => if q.id_producto == idp then { q with activo := false } else q)).filter
      (fun p => p.id_producto == idp)).isEmpty = false := by
    refine filter_isEmpty_eq_false _ _ _ (List.mem_map_of_mem _ hp0) ?_
    rw [hidp p0]
    exact hpb
  have hcne2 : ((db.categorias.map
      (fun q => if q.id_categoria == idc then { q with activo := false } else q)).filter
      (fun c => c.id_categoria == idc)).isEmpty = false := by
    refine filter_isEmpty_eq_false _ _ _ (List.mem_map_of_mem _ hc0) ?_
    rw [hidc c0]
    exact hcb
  have hstablep : ∀ q ∈ db.productos.map
      (fun r => if r.id_producto == idp then { r with activo := false } else r),
      (if q.id_producto == idp then { q with activo := false } else q) = q := by
    intro q hq
    obtain ⟨r, hr, rfl⟩ := List.mem_map.mp hq
    cases r with
    | mk i co no de ca pa pc sm st um ac =>
      by_cases h : (i == idp) = true <;> simp [h]
  have hstablec : ∀ q ∈ db.categorias.map
      (fun r => if r.id_categoria == idc then { r with activo := false } else r),
      (if q.id_categoria == idc then { q with activo := false } else q) = q := by
    intro q hq
    obtain ⟨r, hr, rfl⟩ := List.mem_map.mp hq
    cases r with
    | mk i no de ac =>
      by_cases h : (i == idc) = true <;> simp [h]
  rw [eliminar_producto_found db idp hne1, eliminar_categoria_found db idc hcne1]
  rw [eliminar_producto_found _ idp hne2, eliminar_categoria_found _ idc hcne2]
  refine ⟨rfl, rfl, ?_, ?_, rfl, rfl, ?_, ?_⟩
  · simp only [map_eq_self_of_all _ _ hstablep]
  · intro p hp hpe
    obtain ⟨r, hr, rfl⟩ := List.mem_map.mp hp
    by_cases h : (r.id_producto == idp) = true
    · simp [h]
    · rw [Bool.not_eq_true] at h
      rw [if_neg (by simp [h] : ¬(r.id_producto == idp) = true)] at hpe ⊢
      exact absurd hpe (by simpa using h)
  · simp only [map_eq_self_of_all _ _ hstablec]
  · intro c hcm hce
    obtain ⟨r, hr, rfl⟩ := List.mem_map.mp hcm
    by_cases h : (r.id_categoria == idc) = true
    · simp [h]
    · rw [Bool.not_eq_true] at h
      rw [if_neg (by simp [h] : ¬(r.id_categoria == idc) = true)] at hce ⊢
      exact absurd hce (by simpa using h)

/-- C8 witness: deactivating product 1 and category 1 of the sample store
twice. -/
theorem eliminar_twice_idempotent_witness :
    (∃ p ∈ dbBase.productos, p.id_producto = 1) ∧
    (∃ c ∈ dbBase.categorias, c.id_categoria = 1) ∧
    (eliminar_producto (eliminar_producto dbBase 1).2 1).2 = (eliminar_producto dbBase 1).2 ∧
    (∀ p ∈ (eliminar_producto dbBase 1).2.productos, p.id_producto = 1 → p.activo = false) :=
  ⟨by decide, by decide,
    (eliminar_twice_idempotent dbBase 1 1 (by decide) (by decide)).2.2.1,
    (eliminar_twice_idempotent dbBase 1 1 (by decide) (by decide)).2.2.2.1⟩

/-- C1 counterexample: the pre-check is per line against the same observed
stock, so a request whose lines jointly over-draw a product is NOT rejected.
Concretely: product 1 has stock 10; a sale with two lines of 6 units each
(combined 12 > 10) passes validation, passes the pre-check, is accepted, and
the header is written. -/
theorem crear_venta_joint_overdraw_accepted :
    (ventaBase [lineaSeis, lineaSeis]).valid = true ∧
    productoCola.stock = 10 ∧
    lineaSeis.cantidad + lineaSeis.cantidad = 12 ∧
    lineaSeis.id_producto = productoCola.id_producto ∧
    exceptOk (postVenta dbBase (ventaBase [lineaSeis, lineaSeis]) .ok).1 = true ∧
    (postVenta dbBase (ventaBase [lineaSeis, lineaSeis]) .ok).2.ventas ≠ dbBase.ventas := by
  decide

/-- C1 (amended): the engine rejects a request only on a single line's
over-draw. When every line's product exists and no individual line's
quantity exceeds that product's stock as observed at check time, the request
is accepted and written — even when several lines referencing the same
product jointly exceed its stock (the witness instantiates exactly that
case); the rejection direction for a single over-drawing line is C2. -/
theorem crear_venta_per_line_only (db : DB) (venta : VentaCreate)
    (hwf : db.wf = true) (hval : venta.valid = true)
    (hok : ∀ d ∈ venta.detalles, ∃ p,
        db.productos.find? (fun q => q.id_producto == d.id_producto) = some p ∧
        d.cantidad ≤ p.stock) :
    (postVenta db venta .ok).1 = .ok (ventaAggregate db venta) ∧
    (postVenta db venta .ok).2.ventas =
      db.ventas ++ [venta.headerRow db.next_venta_id] := by
  have hchk := checkStock_none_of db.productos venta.detalles hok
  rw [postVenta_valid db venta .ok hval]
  constructor
  · rw [crear_venta_ok_eq db venta hchk]
    exact obtener_after_venta db venta hwf
  · exact crear_venta_ok_ventas db venta hchk

/-- C1 witness: the amended statement at the joint-overdraw input (two lines
of 6 against stock 10): each line alone is within stock, so the sale is
accepted. -/
theorem crear_venta_per_line_only_witness :
    dbBase.wf = true ∧
    (ventaBase [lineaSeis, lineaSeis]).valid = true ∧
    (∀ d ∈ (ventaBase [lineaSeis, lineaSeis]).detalles, ∃ p,
        dbBase.productos.find? (fun q => q.id_producto == d.id_producto) = some p ∧
        d.cantidad ≤ p.stock) ∧
    (postVenta dbBase (ventaBase [lineaSeis, lineaSeis]) .ok).1 =
      .ok (ventaAggregate dbBase (ventaBase [lineaSeis, lineaSeis])) := by
  have hok : ∀ d ∈ (ventaBase [lineaSeis, lineaSeis]).detalles, ∃ p,
      dbBase.productos.find? (fun q => q.id_producto == d.id_producto) = some p ∧
      d.cantidad ≤ p.stock := by
    intro d hd
    have hda : d = lineaSeis := by simpa [ventaBase] using hd
    subst hda
    exact ⟨productoCola, rfl, by decide⟩
  exact ⟨by decide, by decide, hok,
    (crear_venta_per_line_only dbBase (ventaBase [lineaSeis, lineaSeis])
      (by decide) (by decide) hok).1⟩

/-- C2: a sale request in which some line's quantity strictly exceeds the
referenced product's current stock fails with `InsufficientStock` carrying
that product's id and current stock, and the store comes back unchanged
(neither header nor lines persisted): the whole check phase runs before the
first write. The hypothesis that every line's product exists reflects the
sequential per-line check (a missing product would surface as
`ProductNotFound` first, see C4). -/
theorem crear_venta_insufficient (db : DB) (venta : VentaCreate) (fault : Fault)
    (hval : venta.valid = true)
    (hex : ∀ d ∈ venta.detalles, ∃ p,
        db.productos.find? (fun q => q.id_producto == d.id_producto) = some p)
    (hover : ∃ d ∈ venta.detalles, ∃ p,
        db.productos.find? (fun q => q.id_producto == d.id_producto) = some p ∧
        p.stock < d.cantidad) :
    ∃ d ∈ venta.detalles, ∃ p,
      db.productos.find? (fun q => q.id_producto == d.id_producto) = some p ∧
      p.stock < d.cantidad ∧
      postVenta db venta fault = (.error (.insufficientStock d.id_producto p.stock), db) := by
  obtain ⟨d, hd, p, hp, hlt, hck⟩ :=
    checkStock_insufficient db.productos venta.detalles hex hover
  refine ⟨d, hd, p, hp, hlt, ?_⟩
  rw [postVenta_valid db venta fault hval]
  exact crear_venta_check_error db venta fault _ hck

/-- C2 witness: one line of 11 units against stock 10 fails with
`InsufficientStock 1 10` and the sample store is unchanged. -/
theorem crear_venta_insufficient_witness :
    (ventaBase [lineaOnce]).valid = true ∧
    (∃ d ∈ (ventaBase [lineaOnce]).detalles, ∃ p,
        dbBase.productos.find? (fun q => q.id_producto == d.id_producto) = some p ∧
        p.stock < d.cantidad) ∧
    (∃ d ∈ (ventaBase [lineaOnce]).detalles, ∃ p,
        dbBase.productos.find? (fun q => q.id_producto == d.id_producto) = some p ∧
        p.stock < d.cantidad ∧
        postVenta dbBase (ventaBase [lineaOnce]) .ok =
          (.error (.insufficientStock d.id_producto p.stock), dbBase)) := by
  have hex : ∀ d ∈ (ventaBase [lineaOnce]).detalles, ∃ p,
      dbBase.productos.find? (fun q => q.id_producto == d.id_producto) = some p := by
    intro d hd
    have hda : d = lineaOnce := by simpa [ventaBase] using hd
    subst hda
    exact ⟨productoCola, rfl⟩
  have hover : ∃ d ∈ (ventaBase [lineaOnce]).detalles, ∃ p,
      dbBase.productos.find? (fun q => q.id_producto == d.id_producto) = some p ∧
      p.stock < d.cantidad :=
    ⟨lineaOnce, by simp [ventaBase], productoCola, rfl, by decide⟩
  exact ⟨by decide, hover,
    crear_venta_insufficient dbBase (ventaBase [lineaOnce]) .ok (by decide) hex hover⟩

/-- C4: a sale request with a line referencing a product id absent from the
store fails before any write, with the store unchanged; the fetch-and-check
runs sequentially in line order, so when every line before the missing one
passes its stock check, the failure is `ProductNotFound` identifying that
line's product. -/
theorem crear_venta_product_not_found (db : DB) (venta : VentaCreate) (fault : Fault)
    (hval : venta.valid = true)
    (hmiss : ∃ d ∈ venta.detalles,
        db.productos.find? (fun q => q.id_producto == d.id_producto) = none) :
    (∃ e, postVenta db venta fault = (.error e, db)) ∧
    (∀ pre d post, venta.detalles = pre ++ d :: post →
        (∀ e ∈ pre, ∃ p,
            db.productos.find? (fun q => q.id_producto == e.id_producto) = some p ∧
            e.cantidad ≤ p.stock) →
        db.productos.find? (fun q => q.id_producto == d.id_producto) = none →
        postVenta db venta fault = (.error (.productNotFound d.id_producto), db)) := by
  constructor
  · obtain ⟨e, he⟩ := checkStock_missing_some db.productos venta.detalles hmiss
    refine ⟨e, ?_⟩
    rw [postVenta_valid db venta fault hval]
    exact crear_venta_check_error db venta fault e he
  · intro pre d post hsplit hpre hd
    rw [postVenta_valid db venta fault hval]
    refine crear_venta_check_error db venta fault _ ?_
    rw [hsplit]
    exact checkStock_missing_first db.productos pre d post hpre hd

/-- C4 witness: a single line referencing absent product 99 fails with
`ProductNotFound 99` and the sample store is unchanged. -/
theorem crear_venta_product_not_found_witness :
    (ventaBase [lineaFantasma]).valid = true ∧
    postVenta dbBase (ventaBase [lineaFantasma]) .ok =
      (.error (.productNotFound 99), dbBase) :=
  ⟨by decide,
    (crear_venta_product_not_found dbBase (ventaBase [lineaFantasma]) .ok (by decide)
        ⟨lineaFantasma, by simp [ventaBase], rfl⟩).2
      [] lineaFantasma [] rfl (by intro e he; cases he) rfl⟩

/-- C3: a valid creation request with N ≥ 1 lines that succeeds returns the
hydrated aggregate with exactly N line records, each referencing the header
id created by that request; shown for sales (under a passing stock check)
and purchases. -/
theorem crear_aggregate_lines (db : DB) (venta : VentaCreate) (compra : CompraCreate)
    (hwf : db.wf = true) (hval : venta.valid = true) (hcval : compra.valid = true)
    (hchk : checkStock db.productos venta.detalles = none) :
    (∃ v, (postVenta db venta .ok).1 = .ok v ∧
        v.header.id_venta = db.next_venta_id ∧
        v.detalles.length = venta.detalles.length ∧
        ∀ dv ∈ v.detalles, dv.row.id_venta = v.header.id_venta) ∧
    (∃ c, (postCompra db compra .ok).1 = .ok c ∧
        c.header.id_compra = db.next_compra_id ∧
        c.detalles.length = compra.detalles.length ∧
        ∀ dc ∈ c.detalles, dc.row.id_compra = c.header.id_compra) := by
  constructor
  · refine ⟨ventaAggregate db venta, ?_, rfl, ventaAggregate_length db venta,
      ventaAggregate_ids db venta⟩
    rw [postVenta_valid db venta .ok hval, crear_venta_ok_eq db venta hchk]
    exact obtener_after_venta db venta hwf
  · refine ⟨compraAggregate db compra, ?_, rfl, compraAggregate_length db compra,
      compraAggregate_ids db compra⟩
    rw [postCompra_valid db compra .ok hcval, crear_compra_ok_eq db compra]
    exact obtener_after_compra db compra hwf

/-- C3 witness: a one-line sale and a one-line purchase at the sample
store. -/
theorem crear_aggregate_lines_witness :
    dbBase.wf = true ∧
    (ventaBase [lineaSeis]).valid = true ∧
    (compraBase [lineaCompraDos]).valid = true ∧
    checkStock dbBase.productos (ventaBase [lineaSeis]).detalles = none ∧
    (∃ v, (postVenta dbBase (ventaBase [lineaSeis]) .ok).1 = .ok v ∧
        v.header.id_venta = dbBase.next_venta_id ∧
        v.detalles.length = (ventaBase [lineaSeis]).detalles.length ∧
        ∀ dv ∈ v.detalles, dv.row.id_venta = v.header.id_venta) ∧
    (∃ c, (postCompra dbBase (compraBase [lineaCompraDos]) .ok).1 = .ok c ∧
        c.header.id_compra = dbBase.next_compra_id ∧
        c.detalles.length = (compraBase [lineaCompraDos]).detalles.length ∧
        ∀ dc ∈ c.detalles, dc.row.id_compra = c.header.id_compra) :=
  ⟨by decide, by decide, by decide, by decide,
    (crear_aggregate_lines dbBase (ventaBase [lineaSeis]) (compraBase [lineaCompraDos])
      (by decide) (by decide) (by decide) (by decide)).1,
    (crear_aggregate_lines dbBase (ventaBase [lineaSeis]) (compraBase [lineaCompraDos])
      (by decide) (by decide) (by decide) (by decide)).2⟩

end Verdusoft
